import Mathlib

/-!
Shallow embedding of the Trade-Track-App storage layer
(`server/storage.ts`, class `DatabaseStorage`) together with the parts of
the shared drizzle schema (`shared/schema.ts`) that shape its inputs.

Modelling conventions:
* `decimal` columns (entry price, exit price, pnl) are stored as decimal
  strings in the database and run through `parseFloat` before arithmetic;
  we model their numeric content as `ℚ`.  JS truthiness of such a string
  (`trade.exitPrice && trade.entryPrice`) is `Option.isSome` here: a
  present decimal string is non-empty hence truthy, and `null`/absent is
  falsy.
* timestamps (`new Date()`, `createdAt`, …) are modelled as `Int`
  milliseconds; the ambient current time is passed explicitly as `now`.
* the database table is a `List Trade`; drizzle's
  `update … where … returning` maps every matching row and destructures
  the first returned row, `delete … where …` removes matching rows, and
  `insert … returning` appends.
* partial update payloads (`updateTradeSchema`, all fields `.partial()`)
  are records of `Option`s: `some v` means the field is supplied with
  value `v`, `none` means it is absent from the payload.
* each storage method is a total function on the table state; the
  TypeScript methods raise no errors of their own (store failures are
  outside this embedding).
-/

namespace TradeTrackr

/-- A row of the `trades` table (`shared/schema.ts`).  `entryPrice`,
`quantity`, `symbol`, `type`, `status`, `userId` are NOT NULL columns;
`exitPrice`, `pnl`, `notes`, `entryTime`, `exitTime` are nullable. -/
structure Trade where
  id : String
  userId : String
  symbol : String
  type : String
  quantity : Int
  entryPrice : ℚ
  exitPrice : Option ℚ
  pnl : Option ℚ
  status : String
  notes : Option String
  entryTime : Option Int
  exitTime : Option Int
  createdAt : Int
  updatedAt : Int
deriving DecidableEq

/-- Insert schema (`insertTradeSchema`): every trade column except `id`,
`userId`, `createdAt`, `updatedAt`.  NOT NULL columns without defaults
are required; `status`, `pnl`, `exitTime` may be supplied but
`createTrade` overwrites them in its `values({...trade, ...})` spread. -/
structure InsertTrade where
  symbol : String
  type : String
  quantity : Int
  entryPrice : ℚ
  exitPrice : Option ℚ
  pnl : Option ℚ
  status : Option String
  notes : Option String
  entryTime : Option Int
  exitTime : Option Int
deriving DecidableEq

/-- Update schema (`updateTradeSchema`): the same columns, all optional
(`.partial()`).  `some v` = field present in the PATCH payload. -/
structure UpdateTrade where
  symbol : Option String
  type : Option String
  quantity : Option Int
  entryPrice : Option ℚ
  exitPrice : Option ℚ
  pnl : Option ℚ
  status : Option String
  notes : Option String
  entryTime : Option Int
  exitTime : Option Int
deriving DecidableEq

/-- The `where(and(eq(trades.id, tradeId), eq(trades.userId, userId)))`
predicate shared by `updateTrade` and `deleteTrade`. -/
def matchesKey (tradeId userId : String) (t : Trade) : Bool :=
  t.id == tradeId && t.userId == userId

/-- Operation `createTrade(userId, trade)`.  Computes pnl when
`trade.exitPrice && trade.entryPrice` is truthy — since `entryPrice` is a
required non-null decimal string, that condition is exactly
`trade.exitPrice` being present.  Inserts with `status` and `exitTime`
derived from `trade.exitPrice`, returning the new row and the new table
state.  `newId` models the generated uuid, `now` the clock. -/
def createTrade (userId : String) (tr : InsertTrade) (newId : String)
    (now : Int) (s : List Trade) : Trade × List Trade :=
  let pnl : Option ℚ :=
    match tr.exitPrice with
    | some ex =>
        some (if tr.type = "long" then (ex - tr.entryPrice) * (tr.quantity : ℚ)
              else (tr.entryPrice - ex) * (tr.quantity : ℚ))
    | none => none
  let newTrade : Trade :=
    { id := newId
      userId := userId
      symbol := tr.symbol
      type := tr.type
      quantity := tr.quantity
      entryPrice := tr.entryPrice
      exitPrice := tr.exitPrice
      pnl := pnl
      status := if tr.exitPrice.isSome then "closed" else "open"
      notes := tr.notes
      entryTime := tr.entryTime <|> some now
      exitTime := if tr.exitPrice.isSome then some now else none
      createdAt := now
      updatedAt := now }
  (newTrade, s ++ [newTrade])

/-- The `let updateData = {...trade}; if (trade.exitPrice &&
trade.entryPrice) {...}` block of `updateTrade`: when the PATCH payload
itself carries both prices, it overwrites `pnl`, `status := 'closed'`
and `exitTime := new Date()` in the update data.  `trade.quantity || 0`
defaults a missing (or zero) payload quantity to 0, and
`trade.type === 'long'` reads the payload type, falling to the short
formula for any other (or missing) value. -/
def updateDataOf (u : UpdateTrade) (now : Int) : UpdateTrade :=
  match u.exitPrice, u.entryPrice with
  | some ex, some en =>
      { u with
        pnl := some (if u.type = some "long"
                     then (ex - en) * ((u.quantity.getD 0 : Int) : ℚ)
                     else (en - ex) * ((u.quantity.getD 0 : Int) : ℚ))
        status := some "closed"
        exitTime := some now }
  | _, _ => u

/-- Applying `set({...updateData, updatedAt: new Date()})` to one row:
each field present in the update data replaces the stored one, `id`,
`userId`, `createdAt` are untouched (omitted from the schema), and
`updatedAt` is stamped. -/
def setRow (u : UpdateTrade) (now : Int) (t : Trade) : Trade :=
  { id := t.id
    userId := t.userId
    symbol := u.symbol.getD t.symbol
    type := u.type.getD t.type
    quantity := u.quantity.getD t.quantity
    entryPrice := u.entryPrice.getD t.entryPrice
    exitPrice := u.exitPrice <|> t.exitPrice
    pnl := u.pnl <|> t.pnl
    status := u.status.getD t.status
    notes := u.notes <|> t.notes
    entryTime := u.entryTime <|> t.entryTime
    exitTime := u.exitTime <|> t.exitTime
    createdAt := t.createdAt
    updatedAt := now }

/-- Operation `updateTrade(tradeId, userId, trade)`: builds the update
data, updates every row matching `(id, userId)` and returns the first
updated row (`const [updatedTrade] = … .returning()`), which is
`undefined` — here `none` — when no row matched. -/
def updateTrade (tradeId userId : String) (u : UpdateTrade) (now : Int)
    (s : List Trade) : Option Trade × List Trade :=
  let d := updateDataOf u now
  (((s.filter (matchesKey tradeId userId)).head?).map (setRow d now),
   s.map (fun t => if matchesKey tradeId userId t then setRow d now t else t))

/-- Operation `deleteTrade(tradeId, userId)`: removes matching rows;
returns nothing and signals nothing when zero rows match. -/
def deleteTrade (tradeId userId : String) (s : List Trade) : List Trade :=
  s.filter (fun t => !(matchesKey tradeId userId t))

/-- Operation `getTrades(userId, limit = 10)`: the user's trades, newest
`createdAt` first, truncated to `limit` (the TypeScript default for the
limit argument is 10). -/
def getTrades (userId : String) (limit : Nat) (s : List Trade) : List Trade :=
  ((s.filter (fun t => t.userId == userId)).mergeSort
      (fun a b => decide (b.createdAt ≤ a.createdAt))).take limit

/-- Operation `getTradesByDateRange(userId, startDate, endDate)`: the
user's trades with `createdAt` in the inclusive range (`gte`/`lte`),
newest first. -/
def getTradesByDateRange (userId : String) (startDate endDate : Int)
    (s : List Trade) : List Trade :=
  (s.filter (fun t => t.userId == userId
      && decide (startDate ≤ t.createdAt) && decide (t.createdAt ≤ endDate))).mergeSort
    (fun a b => decide (b.createdAt ≤ a.createdAt))

/-- One day in milliseconds: `setDate(getDate() ± 1)` from midnight. -/
def dayMs : Int := 86400000

/-- The record returned by `getTradingStats`. -/
structure TradingStats where
  todayTrades : Nat
  yesterdayTrades : Nat
  totalTrades : Nat
  winRate : ℚ
  totalPnL : ℚ
deriving DecidableEq

/-- JavaScript `Math.round`: half-way cases round toward positive
infinity. -/
def jsRound (q : ℚ) : Int := ⌊q + 1 / 2⌋

/-- Rounding to two decimal places: `Math.round(x * 100) / 100`. -/
def round2 (q : ℚ) : ℚ := (jsRound (q * 100) : ℚ) / 100

/-- The winning-trade filter `trade.pnl && parseFloat(trade.pnl) > 0`:
a null pnl is falsy, so never winning. -/
def isWinning (t : Trade) : Bool :=
  match t.pnl with
  | some p => decide (0 < p)
  | none => false

/-- Operation `getTradingStats(userId)`.  `today` is the caller's clock
truncated to midnight; `tomorrow`/`yesterday` are one day after/before.
Both count windows are inclusive on both ends (`gte` and `lte`), sharing
`today`.  Win rate and total pnl are computed over the user's closed
trades and rounded to two decimals on return. -/
def getTradingStats (userId : String) (today : Int) (s : List Trade) :
    TradingStats :=
  let tomorrow := today + dayMs
  let yesterday := today - dayMs
  let todayCount := (s.filter (fun t => t.userId == userId
      && decide (today ≤ t.createdAt) && decide (t.createdAt ≤ tomorrow))).length
  let yesterdayCount := (s.filter (fun t => t.userId == userId
      && decide (yesterday ≤ t.createdAt) && decide (t.createdAt ≤ today))).length
  let totalCount := (s.filter (fun t => t.userId == userId)).length
  let closedTrades := s.filter (fun t => t.userId == userId && t.status == "closed")
  let winningTrades := closedTrades.filter isWinning
  let winRate : ℚ :=
    if closedTrades.length > 0 then
      ((winningTrades.length : ℚ) / (closedTrades.length : ℚ)) * 100
    else 0
  let totalPnL : ℚ := closedTrades.foldl (fun sum t => sum + t.pnl.getD 0) 0
  { todayTrades := todayCount
    yesterdayTrades := yesterdayCount
    totalTrades := totalCount
    winRate := round2 winRate
    totalPnL := round2 totalPnL }

/-- A stored open long trade of user `alice`: entry price 100, quantity 5,
no exit data. -/
def tOpen : Trade :=
  { id := "t1", userId := "alice", symbol := "AAPL", type := "long",
    quantity := 5, entryPrice := 100, exitPrice := none, pnl := none,
    status := "open", notes := none, entryTime := some 1, exitTime := none,
    createdAt := 1, updatedAt := 1 }

/-- A PATCH payload supplying only `exitPrice: 110`. -/
def onlyExit : UpdateTrade :=
  { symbol := none, type := none, quantity := none, entryPrice := none,
    exitPrice := some 110, pnl := none, status := none, notes := none,
    entryTime := none, exitTime := none }

/-- A PATCH payload with both prices, long direction and quantity 5. -/
def bothPrices : UpdateTrade :=
  { onlyExit with entryPrice := some 100, type := some "long", quantity := some 5 }

/-- A PATCH payload with both prices and no quantity. -/
def bothNoQty : UpdateTrade := { onlyExit with entryPrice := some 100 }

/-- Insert payload without exit data. -/
def inpOpen : InsertTrade :=
  { symbol := "AAPL", type := "long", quantity := 5, entryPrice := 100,
    exitPrice := none, pnl := none, status := none, notes := none,
    entryTime := none, exitTime := none }

/-- Insert payload: long, entry 100, exit 110, quantity 5. -/
def inpLong : InsertTrade := { inpOpen with exitPrice := some 110 }

/-- Insert payload: short, entry 100, exit 90, quantity 5. -/
def inpShort : InsertTrade := { inpOpen with type := "short", exitPrice := some 90 }

/-- Table state reached by creating an open trade and then updating it
with only an exit price. -/
def c2State : List Trade :=
  (updateTrade "t1" "alice" onlyExit 7 (createTrade "alice" inpOpen "t1" 1 []).2).2

/-- Three closed trades of `alice`: pnl 50, 5 and −50 — two winners, one
loser, total pnl 5. -/
def statsSample : List Trade :=
  [ { tOpen with
      id := "c1"
      status := "closed"
      exitPrice := some 110
      pnl := some 50
      exitTime := some 2 },
    { tOpen with
      id := "c2"
      status := "closed"
      exitPrice := some 101
      pnl := some 5
      exitTime := some 2 },
    { tOpen with
      id := "c3"
      status := "closed"
      exitPrice := some 90
      pnl := some (-50)
      exitTime := some 2 } ]

/-- A trade of a second user `bob` in the same table. -/
def tBob : Trade := { tOpen with id := "t2", userId := "bob" }

/-- A table holding one trade of `alice` and one of `bob`. -/
def mixedStore : List Trade := [tOpen, tBob]

/-- Filtering by a predicate that entails ownership by `A` gives the same
result on the whole table and on `A`'s rows. -/
theorem filter_sub_user (A : String) (p : Trade → Bool) (s : List Trade)
    (h : ∀ t, p t = true → (t.userId == A) = true) :
    (s.filter (fun t => t.userId == A)).filter p = s.filter p := by
  rw [List.filter_filter]
  refine List.filter_congr (fun t _ => ?_)
  show (p t && (t.userId == A)) = p t
  cases hp : p t
  · rfl
  · simp [h t hp]

/-- Rows owned by a different user pass through the row-mapping of an
update scoped to `A` untouched, as far as a `userId == B` filter can
see. -/
theorem map_update_filter_other (tid A B : String) (d : UpdateTrade)
    (now : Int) (hNe : B ≠ A) (s : List Trade) :
    (s.map (fun t => if matchesKey tid A t then setRow d now t else t)).filter
        (fun t => t.userId == B)
      = s.filter (fun t => t.userId == B) := by
  induction s with
  | nil => rfl
  | cons t ts ih =>
    cases hm : matchesKey tid A t
    · simp [List.filter_cons, hm, ih]
    · have hA : t.userId = A := by
        have h2 := hm
        simp only [matchesKey, Bool.and_eq_true, beq_iff_eq] at h2
        exact h2.2
      have hB : (t.userId == B) = false := by
        rw [beq_eq_false_iff_ne, hA]
        exact Ne.symm hNe
      have hB2 : ((setRow d now t).userId == B) = false := by
        simpa [setRow] using hB
      simp [List.filter_cons, hm, hB, hB2, ih]

/-- C1 counterexample: updating the stored open trade — whose entry price
100 is already present on the row — with a payload carrying only
`exitPrice` leaves the trade `open` with null pnl and null exit time,
refuting the claim that the stored entry price also triggers re-closing
(the claim predicts status `closed`, a computed pnl and a non-null exit
time here). -/
theorem C1_counterexample :
    ((updateTrade "t1" "alice" onlyExit 7 [tOpen]).1.map
      (fun t => (t.status, t.pnl.isSome, t.exitTime.isSome)))
      = some ("open", false, false) := by decide

/-- C1 amended: `updateTrade` recomputes pnl, forces status `closed` and
stamps the exit time exactly when the partial input ITSELF supplies both
entry and exit price; the recomputation uses the payload's direction
(anything but a supplied `long` takes the short formula), prices and
quantity (0 when omitted), regardless of the stored pnl — even on an
already-closed trade.  When the payload supplies only `exitPrice` (entry
price merely stored), no re-closing happens: status, pnl and exit time
keep their stored values and only the supplied fields change. -/
theorem C1_update_close_behavior (tid uid : String) (u : UpdateTrade) (now : Int)
    (s : List Trade) (t : Trade) (en ex : ℚ)
    (hmatch : (s.filter (matchesKey tid uid)).head? = some t) :
    (u.entryPrice = some en → u.exitPrice = some ex →
      (updateTrade tid uid u now s).1.map Trade.status = some "closed" ∧
      (updateTrade tid uid u now s).1.map Trade.pnl
        = some (some (if u.type = some "long"
            then (ex - en) * ((u.quantity.getD 0 : Int) : ℚ)
            else (en - ex) * ((u.quantity.getD 0 : Int) : ℚ))) ∧
      (updateTrade tid uid u now s).1.map Trade.exitTime = some (some now)) ∧
    (u.entryPrice = none → u.status = none → u.pnl = none → u.exitTime = none →
      (updateTrade tid uid u now s).1.map Trade.status = some t.status ∧
      (updateTrade tid uid u now s).1.map Trade.pnl = some t.pnl ∧
      (updateTrade tid uid u now s).1.map Trade.exitTime = some t.exitTime ∧
      (updateTrade tid uid u now s).1.map Trade.exitPrice
        = some (u.exitPrice <|> t.exitPrice)) := by
  constructor
  · intro hen hex
    simp [updateTrade, updateDataOf, hen, hex, hmatch, setRow]
  · intro hen hst hpnl het
    simp [updateTrade, hmatch, setRow]
    cases hu : u.exitPrice <;>
      simp [updateDataOf, hu, hen, hst, hpnl, het, setRow]

/-- C1 witness: a payload with entry 100, exit 110, long, quantity 5
closes the stored trade with pnl 50 and exit time stamped. -/
theorem C1_witness :
    (updateTrade "t1" "alice" bothPrices 7 [tOpen]).1.map Trade.status = some "closed" ∧
    (updateTrade "t1" "alice" bothPrices 7 [tOpen]).1.map Trade.pnl = some (some 50) ∧
    (updateTrade "t1" "alice" bothPrices 7 [tOpen]).1.map Trade.exitTime = some (some 7) := by
  have h := (C1_update_close_behavior "t1" "alice" bothPrices 7 [tOpen] tOpen 100 110
    (by decide)).1 rfl rfl
  refine ⟨h.1, ?_, h.2.2⟩
  rw [h.2.1]
  norm_num [bothPrices, onlyExit]

/-- C2 counterexample: the state reached by `createTrade` (open trade)
followed by `updateTrade` with only an exit price holds a trade with a
non-null exit price but status `open`, null pnl and null exit time —
refuting the claimed four-way invariant for reachable states. -/
theorem C2_counterexample :
    c2State.map (fun t => (t.status, t.exitPrice.isSome, t.pnl.isSome, t.exitTime.isSome))
      = [("open", true, false, false)] := by decide

/-- C2 amended: the four-way invariant (status `closed` iff exit price
present iff pnl present iff exit time present) does hold for every trade
produced by `createTrade`, whatever the insert payload; it is
`updateTrade`'s partial payloads that can break it. -/
theorem C2_create_invariant (userId : String) (tr : InsertTrade) (newId : String)
    (now : Int) (s : List Trade) :
    ((createTrade userId tr newId now s).1.status = "closed"
       ↔ (createTrade userId tr newId now s).1.exitPrice.isSome = true) ∧
    ((createTrade userId tr newId now s).1.exitPrice.isSome = true
       ↔ (createTrade userId tr newId now s).1.pnl.isSome = true) ∧
    ((createTrade userId tr newId now s).1.exitPrice.isSome = true
       ↔ (createTrade userId tr newId now s).1.exitTime.isSome = true) := by
  cases h : tr.exitPrice <;> simp [createTrade, h]

/-- C3: `createTrade` computes pnl as (exit − entry) × quantity for a
`long` payload and (entry − exit) × quantity otherwise whenever an exit
price is supplied, sets status and exit time from the presence of the
exit price, and in particular: long 100→110 × 5 gives pnl 50, short
100→90 × 5 gives pnl 50, and a payload without exit price creates an
`open` trade with null pnl and null exit time. -/
theorem C3_createTrade_pnl (userId : String) (tr : InsertTrade) (newId : String)
    (now : Int) (s : List Trade) :
    ((createTrade userId tr newId now s).1.pnl
      = tr.exitPrice.map (fun ex => if tr.type = "long"
          then (ex - tr.entryPrice) * (tr.quantity : ℚ)
          else (tr.entryPrice - ex) * (tr.quantity : ℚ))) ∧
    (createTrade userId tr newId now s).1.status
      = (if tr.exitPrice.isSome then "closed" else "open") ∧
    (createTrade userId tr newId now s).1.exitTime
      = (if tr.exitPrice.isSome then some now else none) ∧
    (createTrade "alice" inpLong "t1" 3 []).1.pnl = some 50 ∧
    (createTrade "alice" inpShort "t1" 3 []).1.pnl = some 50 ∧
    ((createTrade "alice" inpOpen "t1" 3 []).1.status = "open" ∧
     (createTrade "alice" inpOpen "t1" 3 []).1.pnl = none ∧
     (createTrade "alice" inpOpen "t1" 3 []).1.exitTime = none) := by
  refine ⟨?_, ?_, ?_, ?_, ?_, ?_⟩
  · cases h : tr.exitPrice <;> simp [createTrade, h]
  · cases h : tr.exitPrice <;> simp [createTrade, h]
  · cases h : tr.exitPrice <;> simp [createTrade, h]
  · norm_num [createTrade, inpLong, inpOpen]
  · have hs : ("short" : String) ≠ "long" := by decide
    norm_num [createTrade, inpShort, inpOpen, hs]
  · norm_num [createTrade, inpOpen]

/-- C4: every repository operation scoped to user `A` returns only `A`'s
trades, reads are determined by `A`'s rows alone, and the mutations
(create, update, delete) leave the rows of any other user `B` unchanged —
even when the given trade id belongs to `B`'s trade. -/
theorem C4_user_scoping (A B : String) (hNe : B ≠ A) (lim : Nat) (a b : Int)
    (tr : InsertTrade) (u : UpdateTrade) (nid tid : String) (now today : Int)
    (s : List Trade) :
    (∀ t ∈ getTrades A lim s, t.userId = A) ∧
    (∀ t ∈ getTradesByDateRange A a b s, t.userId = A) ∧
    getTrades A lim s = getTrades A lim (s.filter (fun t => t.userId == A)) ∧
    getTradesByDateRange A a b s
      = getTradesByDateRange A a b (s.filter (fun t => t.userId == A)) ∧
    getTradingStats A today s
      = getTradingStats A today (s.filter (fun t => t.userId == A)) ∧
    (∀ r, (updateTrade tid A u now s).1 = some r → r.userId = A) ∧
    (createTrade A tr nid now s).2.filter (fun t => t.userId == B)
      = s.filter (fun t => t.userId == B) ∧
    (updateTrade tid A u now s).2.filter (fun t => t.userId == B)
      = s.filter (fun t => t.userId == B) ∧
    (deleteTrade tid A s).filter (fun t => t.userId == B)
      = s.filter (fun t => t.userId == B) := by
  refine ⟨?_, ?_, ?_, ?_, ?_, ?_, ?_, ?_, ?_⟩
  · intro t ht
    have h1 := List.mem_of_mem_take ht
    rw [List.mem_mergeSort] at h1
    have h2 := (List.mem_filter.mp h1).2
    simpa using h2
  · intro t ht
    rw [getTradesByDateRange, List.mem_mergeSort] at ht
    have h2 := (List.mem_filter.mp ht).2
    simp only [Bool.and_eq_true, beq_iff_eq] at h2
    exact h2.1.1
  · have e := filter_sub_user A (fun t => t.userId == A) s (fun t ht => ht)
    rw [getTrades, getTrades, e]
  · have e := filter_sub_user A
      (fun t => t.userId == A && decide (a ≤ t.createdAt) && decide (t.createdAt ≤ b)) s
      (fun t ht => by
        simp only [Bool.and_eq_true] at ht
        exact ht.1.1)
    rw [getTradesByDateRange, getTradesByDateRange, e]
  · have e1 := filter_sub_user A
      (fun t => t.userId == A && decide (today ≤ t.createdAt)
        && decide (t.createdAt ≤ today + dayMs)) s
      (fun t ht => by
        simp only [Bool.and_eq_true] at ht
        exact ht.1.1)
    have e2 := filter_sub_user A
      (fun t => t.userId == A && decide (today - dayMs ≤ t.createdAt)
        && decide (t.createdAt ≤ today)) s
      (fun t ht => by
        simp only [Bool.and_eq_true] at ht
        exact ht.1.1)
    have e3 := filter_sub_user A (fun t => t.userId == A) s (fun t ht => ht)
    have e4 := filter_sub_user A (fun t => t.userId == A && t.status == "closed") s
      (fun t ht => by
        simp only [Bool.and_eq_true] at ht
        exact ht.1)
    simp only [getTradingStats]
    rw [e1, e2, e3, e4]
  · intro r hr
    simp only [updateTrade, Option.map_eq_some'] at hr
    obtain ⟨t0, ht0, rfl⟩ := hr
    have hmem : t0 ∈ s.filter (matchesKey tid A) :=
      List.mem_of_mem_head? (Option.mem_def.mpr ht0)
    have h2 := (List.mem_filter.mp hmem).2
    simp only [matchesKey, Bool.and_eq_true, beq_iff_eq] at h2
    simpa [setRow] using h2.2
  · have hB : (A == B) = false := by
      rw [beq_eq_false_iff_ne]
      exact Ne.symm hNe
    simp [createTrade, List.filter_append, List.filter_cons, hB]
  · exact map_update_filter_other tid A B (updateDataOf u now) now hNe s
  · rw [deleteTrade, List.filter_filter]
    refine List.filter_congr (fun t _ => ?_)
    show ((t.userId == B) && !(matchesKey tid A t)) = (t.userId == B)
    cases hp : (t.userId == B)
    · rfl
    · have hub : t.userId = B := by simpa [beq_iff_eq] using hp
      have hA : (t.userId == A) = false := by
        rw [beq_eq_false_iff_ne, hub]
        exact hNe
      simp [matchesKey, hA]

/-- C4 witness: deleting with `alice`'s user id but `bob`'s trade id
leaves `bob`'s rows of the mixed table unchanged. -/
theorem C4_witness :
    ("bob" : String) ≠ "alice" ∧
    (deleteTrade "t2" "alice" mixedStore).filter (fun t => t.userId == "bob")
      = mixedStore.filter (fun t => t.userId == "bob") :=
  ⟨by decide,
    (C4_user_scoping "alice" "bob" (by decide) 10 0 0 inpOpen onlyExit "n" "t2"
      7 0 mixedStore).2.2.2.2.2.2.2.2⟩

/-- C5: the win rate is the count of the user's closed trades with
positive pnl over the count of the user's closed trades, times 100 and
rounded to two decimals, with 0 when there are no closed trades; for a
user with three closed trades of which two are winners it is 66.67. -/
theorem C5_winRate (u : String) (today : Int) (s : List Trade) :
    ((getTradingStats u today s).winRate
      = if s.countP (fun t => t.userId == u && t.status == "closed") = 0 then 0
        else round2
          ((s.countP (fun t => t.userId == u && t.status == "closed" && isWinning t) : ℚ)
            / (s.countP (fun t => t.userId == u && t.status == "closed") : ℚ) * 100)) ∧
    (getTradingStats "alice" 0 statsSample).winRate = 6667 / 100 ∧
    (getTradingStats "alice" 0 []).winRate = 0 := by
  refine ⟨?_, ?_, ?_⟩
  · have hfil : (s.filter (fun t => t.userId == u && t.status == "closed")).filter isWinning
        = s.filter (fun t => t.userId == u && t.status == "closed" && isWinning t) := by
      rw [List.filter_filter]
      refine List.filter_congr (fun t _ => ?_)
      show (isWinning t && (t.userId == u && t.status == "closed"))
          = (t.userId == u && t.status == "closed" && isWinning t)
      cases isWinning t <;> cases (t.userId == u) <;> cases (t.status == "closed") <;> rfl
    by_cases hz : (s.filter (fun t => t.userId == u && t.status == "closed")).length = 0
    · simp [getTradingStats, List.countP_eq_length_filter, hz, round2, jsRound]
      norm_num
    · simp [getTradingStats, List.countP_eq_length_filter, hz, hfil,
        Nat.pos_of_ne_zero hz]
  · norm_num [getTradingStats, round2, jsRound, isWinning, statsSample, tOpen, dayMs]
  · norm_num [getTradingStats, round2, jsRound]

/-- C6: the total pnl is the sum of pnl over the user's closed trades
with null treated as 0, rounded to two decimals, and 0 for a user with
no closed trades. -/
theorem C6_totalPnL (u : String) (today : Int) (s : List Trade) :
    ((getTradingStats u today s).totalPnL
      = round2 (((s.filter (fun t => t.userId == u && t.status == "closed")).map
          (fun t => t.pnl.getD 0)).sum)) ∧
    (getTradingStats "alice" 0 []).totalPnL = 0 ∧
    (getTradingStats "alice" 0 statsSample).totalPnL = 5 := by
  have hfold : ∀ (l : List Trade) (acc : ℚ),
      l.foldl (fun a t => a + t.pnl.getD 0) acc
        = acc + (l.map (fun t => t.pnl.getD 0)).sum := by
    intro l
    induction l with
    | nil => intro acc; simp
    | cons t ts ih => intro acc; simp [ih, add_assoc]
  refine ⟨?_, ?_, ?_⟩
  · simp [getTradingStats, hfold]
  · norm_num [getTradingStats, round2, jsRound]
  · norm_num [getTradingStats, round2, jsRound, statsSample, tOpen, dayMs, hfold]

/-- C7: the today window is the inclusive interval from midnight to
midnight plus one day and the yesterday window the inclusive interval
from midnight minus one day to midnight, so a trade created exactly at
midnight (`createdAt = today`) is counted by both `todayTrades` and
`yesterdayTrades`. -/
theorem C7_midnight_double_count (u : String) (today : Int) (s : List Trade)
    (t : Trade) (hu : t.userId = u) (hc : t.createdAt = today) :
    (getTradingStats u today (t :: s)).todayTrades
        = (getTradingStats u today s).todayTrades + 1 ∧
    (getTradingStats u today (t :: s)).yesterdayTrades
        = (getTradingStats u today s).yesterdayTrades + 1 ∧
    (getTradingStats u today s).todayTrades
        = s.countP (fun x => x.userId == u
            && decide (today ≤ x.createdAt ∧ x.createdAt ≤ today + dayMs)) ∧
    (getTradingStats u today s).yesterdayTrades
        = s.countP (fun x => x.userId == u
            && decide (today - dayMs ≤ x.createdAt ∧ x.createdAt ≤ today)) := by
  have h1 : today ≤ today + dayMs := by norm_num [dayMs]
  have h2 : today - dayMs ≤ today := by norm_num [dayMs]
  refine ⟨?_, ?_, ?_, ?_⟩ <;>
    simp [getTradingStats, hu, hc, h1, h2, List.countP_eq_length_filter,
      Bool.decide_and, Bool.and_assoc]

/-- C7 witness: the trade created at time 1 is counted in both windows
when midnight is 1. -/
theorem C7_witness :
    (getTradingStats "alice" 1 [tOpen]).todayTrades
        = (getTradingStats "alice" 1 []).todayTrades + 1 ∧
    (getTradingStats "alice" 1 [tOpen]).yesterdayTrades
        = (getTradingStats "alice" 1 []).yesterdayTrades + 1 ∧
    (getTradingStats "alice" 1 []).todayTrades
        = ([] : List Trade).countP (fun x => x.userId == "alice"
            && decide (1 ≤ x.createdAt ∧ x.createdAt ≤ 1 + dayMs)) ∧
    (getTradingStats "alice" 1 []).yesterdayTrades
        = ([] : List Trade).countP (fun x => x.userId == "alice"
            && decide (1 - dayMs ≤ x.createdAt ∧ x.createdAt ≤ 1)) :=
  C7_midnight_double_count "alice" 1 [] tOpen rfl rfl

/-- C8: deleting with a `(tradeId, userId)` pair that matches no stored
trade is a silent no-op — the operation is total (raises nothing) and
the table is unchanged. -/
theorem C8_delete_missing_noop (tid uid : String) (s : List Trade)
    (h : ∀ t ∈ s, matchesKey tid uid t = false) :
    deleteTrade tid uid s = s := by
  rw [deleteTrade, List.filter_eq_self]
  intro t ht
  simp [h t ht]

/-- C8 witness: deleting an unknown trade id from a one-row table leaves
it unchanged. -/
theorem C8_witness :
    (∀ t ∈ [tOpen], matchesKey "zzz" "alice" t = false) ∧
    deleteTrade "zzz" "alice" [tOpen] = [tOpen] :=
  ⟨by decide, C8_delete_missing_noop "zzz" "alice" [tOpen] (by decide)⟩

/-- C9: updating with a `(tradeId, userId)` pair that matches no stored
trade raises nothing, yields an empty update result (`none`, the
destructured `undefined` of an empty `returning()`), and leaves the
table unchanged. -/
theorem C9_update_missing (tid uid : String) (u : UpdateTrade) (now : Int)
    (s : List Trade) (h : ∀ t ∈ s, matchesKey tid uid t = false) :
    updateTrade tid uid u now s = (none, s) := by
  have hf : s.filter (matchesKey tid uid) = [] := by
    rw [List.filter_eq_nil_iff]
    intro t ht
    simp [h t ht]
  have hm : s.map (fun t => if matchesKey tid uid t
      then setRow (updateDataOf u now) now t else t) = s.map id :=
    List.map_congr_left (fun t ht => by simp [h t ht])
  rw [updateTrade, hf, hm, List.map_id]
  rfl

/-- C9 witness: updating `alice`'s trade id under `bob`'s user id finds
no row, returns `none` and changes nothing. -/
theorem C9_witness :
    (∀ t ∈ [tOpen], matchesKey "t1" "bob" t = false) ∧
    updateTrade "t1" "bob" onlyExit 7 [tOpen] = (none, [tOpen]) :=
  ⟨by decide, C9_update_missing "t1" "bob" onlyExit 7 [tOpen] (by decide)⟩

/-- C10: when the update payload supplies both prices but omits quantity,
`trade.quantity || 0` makes the recomputed pnl use quantity 0 — the
stored quantity is ignored — so the matched trade is closed with pnl
0. -/
theorem C10_quantity_defaults_zero (tid uid : String) (u : UpdateTrade)
    (now : Int) (s : List Trade) (t : Trade) (en ex : ℚ)
    (hmatch : (s.filter (matchesKey tid uid)).head? = some t)
    (hen : u.entryPrice = some en) (hex : u.exitPrice = some ex)
    (hq : u.quantity = none) :
    (updateTrade tid uid u now s).1.map Trade.pnl = some (some 0) ∧
    (updateTrade tid uid u now s).1.map Trade.status = some "closed" := by
  simp [updateTrade, updateDataOf, hen, hex, hq, hmatch, setRow]

/-- C10 witness: both prices without quantity on the stored
quantity-5 trade yields pnl 0 and status closed. -/
theorem C10_witness :
    (updateTrade "t1" "alice" bothNoQty 7 [tOpen]).1.map Trade.pnl = some (some 0) ∧
    (updateTrade "t1" "alice" bothNoQty 7 [tOpen]).1.map Trade.status = some "closed" :=
  C10_quantity_defaults_zero "t1" "alice" bothNoQty 7 [tOpen] tOpen 100 110
    (by decide) rfl rfl rfl

end TradeTrackr
